import Mathlib

/-!
Shallow embedding of `renogy-rs` (`src/lib.rs`): a Modbus-RTU register
reader for Renogy batteries.  Pure data and decode logic are translated
directly from the Rust source.  The external Modbus transaction engine
(`tokio_modbus`) is modelled as a `Device` oracle; real time is abstracted:
the 200 ms `tokio::time::timeout` expiring is modelled as the oracle
answering `EngineResponse.timeout`.  `f64` scaling is modelled as exact
rational scaling (all scale factors and example values in the spec are
exactly representable).  The shared port's mutable "active slave id" state
and the sequence of issued requests are threaded explicitly through
`RwState`; Rust `assert!` failures are modelled by the `POutcome.assertFail`
outcome, distinct from returning an `Error`.
-/

namespace Renogy

/-- Error taxonomy of `enum Error` in `src/lib.rs`.  `std::io::ErrorKind`
is abstracted as an opaque `Nat` classification code. -/
inductive Error where
  | Timeout : Error
  | NoDevice : String → Error
  | InvalidInput : String → Error
  | Unknown : String → Error
  | Io : Nat → Error
deriving DecidableEq

/-- Outcome of one engine-level `read_holding_registers` transaction:
the word array, a transport failure kind, or expiry of the 200 ms bound. -/
inductive EngineResponse where
  | words : List Nat → EngineResponse
  | ioError : Nat → EngineResponse
  | timeout : EngineResponse
deriving DecidableEq

/-- The external Modbus transaction engine, as a function of
(active slave id, register address, word count). -/
def Device : Type := Nat → Nat → Nat → EngineResponse

/-- A `Battery` handle holds a slave address; the shared `Port` it
references is passed explicitly as the `Device` oracle plus `RwState`. -/
structure Battery where
  addr : Nat
deriving DecidableEq

/-- Mutable state of the shared port: the currently active slave id
(set by `set_slave`) and the log of requests issued so far, each entry
being (slave id, register address, word count). -/
structure RwState where
  slave : Nat
  trace : List (Nat × Nat × Nat)
deriving DecidableEq

/-- Result of a battery operation: success, a returned `Error`, or an
`assert!` failure (a Rust panic, which is not a returned `Error`). -/
inductive POutcome (α : Type) where
  | ok : α → POutcome α
  | err : Error → POutcome α
  | assertFail : POutcome α
deriving DecidableEq

/-- The `?` operator on `Result`, lifted over the threaded port state;
an `assert!` failure likewise aborts the computation. -/
def pbind {α β : Type} (x : POutcome α × RwState)
    (f : α → RwState → POutcome β × RwState) : POutcome β × RwState :=
  match x with
  | (.ok a, s) => f a s
  | (.err e, s) => (.err e, s)
  | (.assertFail, s) => (.assertFail, s)

/-- Interpretation of a 16-bit word as a Rust `i16` (`as i16`). -/
def toSigned16 (w : Nat) : Int :=
  if w < 32768 then (w : Int) else (w : Int) - 65536

/-- Bit pattern of an `i16` as a 16-bit word. -/
def toU16 (x : Int) : Nat := (x % 65536).toNat

/-- Swap of the two bytes of a 16-bit word. -/
def swapBytes16 (w : Nat) : Nat := (w % 256) * 256 + (w / 256) % 256

/-- Rust `i16::swap_bytes`: swap the bytes of the bit pattern and
reinterpret as signed. -/
def i16_swap_bytes (x : Int) : Int := toSigned16 (swapBytes16 (toU16 x))

namespace RegAddr

/-- `RegAddr::Current` -/
def Current : Nat := 0x13b2

/-- `RegAddr::Voltage` -/
def Voltage : Nat := 0x13b3

/-- `RegAddr::RemainingCharge` -/
def RemainingCharge : Nat := 0x13b4

/-- `RegAddr::Capacity` -/
def Capacity : Nat := 0x13b6

/-- `RegAddr::CycleNumber` -/
def CycleNumber : Nat := 0x13b8

/-- `RegAddr::CellVoltage1` -/
def CellVoltage1 : Nat := 0x1389

/-- `RegAddr::CellVoltage2` -/
def CellVoltage2 : Nat := 0x138a

/-- `RegAddr::CellVoltage3` -/
def CellVoltage3 : Nat := 0x138b

/-- `RegAddr::CellVoltage4` -/
def CellVoltage4 : Nat := 0x138c

/-- `RegAddr::CellTemp1` -/
def CellTemp1 : Nat := 0x139a

/-- `RegAddr::CellTemp2` -/
def CellTemp2 : Nat := 0x139b

/-- `RegAddr::CellTemp3` -/
def CellTemp3 : Nat := 0x139c

/-- `RegAddr::CellTemp4` -/
def CellTemp4 : Nat := 0x139d

/-- `RegAddr::HeaterLevel` -/
def HeaterLevel : Nat := 0x13ef

end RegAddr

/-- `Battery::read_register`: set the active slave id to this battery's
address, then issue a read-holding-registers request for `size` words at
`addr`; timeout yields `Error::Timeout`, a transport error yields
`Error::Io(kind)`, success passes the word array through unchanged.  The
issued request is recorded in the trace. -/
def read_register (bat : Battery) (d : Device) (s : RwState)
    (addr size : Nat) : POutcome (List Nat) × RwState :=
  let s' : RwState :=
    { slave := bat.addr, trace := s.trace ++ [(bat.addr, addr, size)] }
  match d bat.addr addr size with
  | .words ws => (.ok ws, s')
  | .ioError k => (.err (.Io k), s')
  | .timeout => (.err .Timeout, s')

/-- `Battery::read_u16`: one-word read via `?`, `assert!(len == 1)`,
word 0. -/
def read_u16 (bat : Battery) (d : Device) (s : RwState) (addr : Nat) :
    POutcome Nat × RwState :=
  pbind (read_register bat d s addr 1) fun ws s =>
    if h : ws.length = 1 then (.ok (ws.get ⟨0, by omega⟩), s)
    else (.assertFail, s)

/-- `Battery::read_i16`: one-word read via `?`, `assert!(len == 1)`,
word 0 reinterpreted `as i16`. -/
def read_i16 (bat : Battery) (d : Device) (s : RwState) (addr : Nat) :
    POutcome Int × RwState :=
  pbind (read_register bat d s addr 1) fun ws s =>
    if h : ws.length = 1 then (.ok (toSigned16 (ws.get ⟨0, by omega⟩)), s)
    else (.assertFail, s)

/-- `Battery::read_u32`: two-word read via `?`, `assert!(len == 2)`,
value `raw[1] + (raw[0] << 16)`: the first word returned lands in the
most-significant 16 bits. -/
def read_u32 (bat : Battery) (d : Device) (s : RwState) (addr : Nat) :
    POutcome Nat × RwState :=
  pbind (read_register bat d s addr 2) fun ws s =>
    if h : ws.length = 2 then
      (.ok (ws.get ⟨1, by omega⟩ + (ws.get ⟨0, by omega⟩) <<< 16), s)
    else (.assertFail, s)

/-- `Battery::current`: byte-swapped signed word at 0x13b2, scale 0.01. -/
def current (bat : Battery) (d : Device) (s : RwState) :
    POutcome ℚ × RwState :=
  pbind (read_i16 bat d s RegAddr.Current) fun x s =>
    (.ok ((i16_swap_bytes x : ℚ) * 0.01), s)

/-- `Battery::voltage`: unsigned word at 0x13b3, scale 0.1. -/
def voltage (bat : Battery) (d : Device) (s : RwState) :
    POutcome ℚ × RwState :=
  pbind (read_u16 bat d s RegAddr.Voltage) fun w s =>
    (.ok ((w : ℚ) * 0.1), s)

/-- `Battery::remaining_charge`: two words at 0x13b4, scale 0.001. -/
def remaining_charge (bat : Battery) (d : Device) (s : RwState) :
    POutcome ℚ × RwState :=
  pbind (read_u32 bat d s RegAddr.RemainingCharge) fun w s =>
    (.ok ((w : ℚ) * 0.001), s)

/-- `Battery::capacity`: two words at 0x13b6, scale 0.001. -/
def capacity (bat : Battery) (d : Device) (s : RwState) :
    POutcome ℚ × RwState :=
  pbind (read_u32 bat d s RegAddr.Capacity) fun w s =>
    (.ok ((w : ℚ) * 0.001), s)

/-- `Battery::cycle_number`: unsigned word at 0x13b8, returned raw. -/
def cycle_number (bat : Battery) (d : Device) (s : RwState) :
    POutcome Nat × RwState :=
  pbind (read_u16 bat d s RegAddr.CycleNumber) fun w s =>
    (.ok w, s)

/-- `Battery::cell_voltage_1`: unsigned word at 0x1389, scale 0.1. -/
def cell_voltage_1 (bat : Battery) (d : Device) (s : RwState) :
    POutcome ℚ × RwState :=
  pbind (read_u16 bat d s RegAddr.CellVoltage1) fun w s =>
    (.ok ((w : ℚ) * 0.1), s)

/-- `Battery::cell_voltage_2`: unsigned word at 0x138a, scale 0.1. -/
def cell_voltage_2 (bat : Battery) (d : Device) (s : RwState) :
    POutcome ℚ × RwState :=
  pbind (read_u16 bat d s RegAddr.CellVoltage2) fun w s =>
    (.ok ((w : ℚ) * 0.1), s)

/-- `Battery::cell_voltage_3`: unsigned word at 0x138b, scale 0.1. -/
def cell_voltage_3 (bat : Battery) (d : Device) (s : RwState) :
    POutcome ℚ × RwState :=
  pbind (read_u16 bat d s RegAddr.CellVoltage3) fun w s =>
    (.ok ((w : ℚ) * 0.1), s)

/-- `Battery::cell_voltage_4`: unsigned word at 0x138c, scale 0.1. -/
def cell_voltage_4 (bat : Battery) (d : Device) (s : RwState) :
    POutcome ℚ × RwState :=
  pbind (read_u16 bat d s RegAddr.CellVoltage4) fun w s =>
    (.ok ((w : ℚ) * 0.1), s)

/-- `Battery::cell_temp_1`: signed word at 0x139a, scale 0.1. -/
def cell_temp_1 (bat : Battery) (d : Device) (s : RwState) :
    POutcome ℚ × RwState :=
  pbind (read_i16 bat d s RegAddr.CellTemp1) fun x s =>
    (.ok ((x : ℚ) * 0.1), s)

/-- `Battery::cell_temp_2`: signed word at 0x139b, scale 0.1. -/
def cell_temp_2 (bat : Battery) (d : Device) (s : RwState) :
    POutcome ℚ × RwState :=
  pbind (read_i16 bat d s RegAddr.CellTemp2) fun x s =>
    (.ok ((x : ℚ) * 0.1), s)

/-- `Battery::cell_temp_3`: signed word at 0x139c, scale 0.1. -/
def cell_temp_3 (bat : Battery) (d : Device) (s : RwState) :
    POutcome ℚ × RwState :=
  pbind (read_i16 bat d s RegAddr.CellTemp3) fun x s =>
    (.ok ((x : ℚ) * 0.1), s)

/-- `Battery::cell_temp_4`: signed word at 0x139d, scale 0.1. -/
def cell_temp_4 (bat : Battery) (d : Device) (s : RwState) :
    POutcome ℚ × RwState :=
  pbind (read_i16 bat d s RegAddr.CellTemp4) fun x s =>
    (.ok ((x : ℚ) * 0.1), s)

/-- `Battery::heater_level`: unsigned word at 0x13ef, scale 0.3922. -/
def heater_level (bat : Battery) (d : Device) (s : RwState) :
    POutcome ℚ × RwState :=
  pbind (read_u16 bat d s RegAddr.HeaterLevel) fun w s =>
    (.ok ((w : ℚ) * 0.3922), s)

/-- `BatteryState`: the decoded snapshot, fields as in the source struct
(`f64` fields modelled as exact rationals, `cycle_number` as `u16`). -/
structure BatteryState where
  current : ℚ
  voltage : ℚ
  remaining_charge : ℚ
  capacity : ℚ
  cycle_number : Nat
  cell_voltage_1 : ℚ
  cell_voltage_2 : ℚ
  cell_voltage_3 : ℚ
  cell_voltage_4 : ℚ
  cell_temp_1 : ℚ
  cell_temp_2 : ℚ
  cell_temp_3 : ℚ
  cell_temp_4 : ℚ
  heater_level : ℚ
deriving DecidableEq

/-- `Battery::read_all`: run every accessor in the source's struct-literal
evaluation order, short-circuiting on the first error via `?`. -/
def read_all (bat : Battery) (d : Device) (s : RwState) :
    POutcome BatteryState × RwState :=
  pbind (current bat d s) fun current_v s =>
  pbind (voltage bat d s) fun voltage_v s =>
  pbind (remaining_charge bat d s) fun remaining_charge_v s =>
  pbind (capacity bat d s) fun capacity_v s =>
  pbind (cell_voltage_1 bat d s) fun cell_voltage_1_v s =>
  pbind (cell_voltage_2 bat d s) fun cell_voltage_2_v s =>
  pbind (cell_voltage_3 bat d s) fun cell_voltage_3_v s =>
  pbind (cell_voltage_4 bat d s) fun cell_voltage_4_v s =>
  pbind (cycle_number bat d s) fun cycle_number_v s =>
  pbind (cell_temp_1 bat d s) fun cell_temp_1_v s =>
  pbind (cell_temp_2 bat d s) fun cell_temp_2_v s =>
  pbind (cell_temp_3 bat d s) fun cell_temp_3_v s =>
  pbind (cell_temp_4 bat d s) fun cell_temp_4_v s =>
  pbind (heater_level bat d s) fun heater_level_v s =>
  (.ok { current := current_v, voltage := voltage_v,
         remaining_charge := remaining_charge_v, capacity := capacity_v,
         cycle_number := cycle_number_v,
         cell_voltage_1 := cell_voltage_1_v,
         cell_voltage_2 := cell_voltage_2_v,
         cell_voltage_3 := cell_voltage_3_v,
         cell_voltage_4 := cell_voltage_4_v,
         cell_temp_1 := cell_temp_1_v, cell_temp_2 := cell_temp_2_v,
         cell_temp_3 := cell_temp_3_v, cell_temp_4 := cell_temp_4_v,
         heater_level := heater_level_v }, s)

/-- Error kind classification of `tokio_serial::ErrorKind`. -/
inductive SerialErrorKind where
  | io : Nat → SerialErrorKind
  | noDevice : SerialErrorKind
  | invalidInput : SerialErrorKind
  | unknown : SerialErrorKind
deriving DecidableEq

/-- `tokio_serial::Error`: a kind plus a description string. -/
structure SerialError where
  kind : SerialErrorKind
  description : String
deriving DecidableEq

/-- A connected port; the transaction context is abstract. -/
structure Port where
  ctx : Unit

/-- `Port::new`: the transport open step (`SerialStream::open`) is passed
in as its outcome; on failure, each `tokio_serial::ErrorKind` is mapped to
the corresponding `Error` variant as in the source `match`. -/
def Port.new (openResult : Except SerialError Unit) : Except Error Port :=
  match openResult with
  | .error e =>
    match e.kind with
    | .io k => .error (.Io k)
    | .noDevice => .error (.NoDevice e.description)
    | .invalidInput => .error (.InvalidInput e.description)
    | .unknown => .error (.Unknown e.description)
  | .ok _ => .ok { ctx := () }

/-- A device backed by fixed register contents `regs`: every read of
`size` words at `addr` succeeds with `[regs addr, regs (addr+1), ...]`. -/
def devTable (regs : Nat → Nat) : Device :=
  fun _ addr size => .words ((List.range size).map fun i => regs (addr + i))

/-- A device that times out on reads at address `a` and answers every
other read with the requested number of zero words. -/
def devFail (a : Nat) : Device :=
  fun _ addr size =>
    if addr = a then .timeout else .words (List.replicate size 0)

/-- The engine contract: a successful read returns exactly the requested
number of words. -/
def EngineWF (d : Device) : Prop :=
  ∀ slave addr size ws, d slave addr size = .words ws → ws.length = size

/-- Register addresses read by `read_all`, in invocation order. -/
def readAllAddrs : List Nat :=
  [RegAddr.Current, RegAddr.Voltage, RegAddr.RemainingCharge,
   RegAddr.Capacity, RegAddr.CellVoltage1, RegAddr.CellVoltage2,
   RegAddr.CellVoltage3, RegAddr.CellVoltage4, RegAddr.CycleNumber,
   RegAddr.CellTemp1, RegAddr.CellTemp2, RegAddr.CellTemp3,
   RegAddr.CellTemp4, RegAddr.HeaterLevel]

/-- The full request sequence one `read_all` issues for battery `bat`. -/
def readAllRequests (bat : Battery) : List (Nat × Nat × Nat) :=
  [(bat.addr, RegAddr.Current, 1), (bat.addr, RegAddr.Voltage, 1),
   (bat.addr, RegAddr.RemainingCharge, 2), (bat.addr, RegAddr.Capacity, 2),
   (bat.addr, RegAddr.CellVoltage1, 1), (bat.addr, RegAddr.CellVoltage2, 1),
   (bat.addr, RegAddr.CellVoltage3, 1), (bat.addr, RegAddr.CellVoltage4, 1),
   (bat.addr, RegAddr.CycleNumber, 1), (bat.addr, RegAddr.CellTemp1, 1),
   (bat.addr, RegAddr.CellTemp2, 1), (bat.addr, RegAddr.CellTemp3, 1),
   (bat.addr, RegAddr.CellTemp4, 1), (bat.addr, RegAddr.HeaterLevel, 1)]

/-- A concrete battery handle at vendor slave id 240. -/
def bat0 : Battery := ⟨240⟩

/-- A fresh port state: slave id 0, no requests issued. -/
def st0 : RwState := ⟨0, []⟩

/-- Register contents for the C1 example: the first word on the wire at
0x13b4 is 0x2710, the second is 0. -/
def regsC1 : Nat → Nat := fun a => if a = RegAddr.RemainingCharge then 0x2710 else 0

/-- Register contents holding the word pair `[w0, w1]` at both two-word
quantities (0x13b4 and 0x13b6), zero elsewhere. -/
def regsPair (w0 w1 : Nat) : Nat → Nat := fun a =>
  if a = RegAddr.RemainingCharge ∨ a = RegAddr.Capacity then w0
  else if a = RegAddr.RemainingCharge + 1 ∨ a = RegAddr.Capacity + 1 then w1
  else 0

/-- Register contents holding word `w` in every register. -/
def regsConst (w : Nat) : Nat → Nat := fun _ => w

/-- A device answering every read with an empty word array, violating
the engine contract. -/
def devEmpty : Device := fun _ _ _ => .words []

/-- State-irrelevance of a port operation: its result component does not
depend on the incoming port state (slave id or trace). -/
def StateIrrel {α : Type} (m : RwState → POutcome α × RwState) : Prop :=
  ∀ s s', (m s).1 = (m s').1

/-- Decoded snapshot as a pure function of fixed register contents;
characterizes `read_all` over `devTable` (see `read_all_devTable`). -/
def decodeState (regs : Nat → Nat) : BatteryState :=
  { current := (i16_swap_bytes (toSigned16 (regs RegAddr.Current)) : ℚ) * 0.01,
    voltage := (regs RegAddr.Voltage : ℚ) * 0.1,
    remaining_charge :=
      ((regs (RegAddr.RemainingCharge + 1) +
        (regs RegAddr.RemainingCharge) <<< 16 : Nat) : ℚ) * 0.001,
    capacity :=
      ((regs (RegAddr.Capacity + 1) +
        (regs RegAddr.Capacity) <<< 16 : Nat) : ℚ) * 0.001,
    cycle_number := regs RegAddr.CycleNumber,
    cell_voltage_1 := (regs RegAddr.CellVoltage1 : ℚ) * 0.1,
    cell_voltage_2 := (regs RegAddr.CellVoltage2 : ℚ) * 0.1,
    cell_voltage_3 := (regs RegAddr.CellVoltage3 : ℚ) * 0.1,
    cell_voltage_4 := (regs RegAddr.CellVoltage4 : ℚ) * 0.1,
    cell_temp_1 := (toSigned16 (regs RegAddr.CellTemp1) : ℚ) * 0.1,
    cell_temp_2 := (toSigned16 (regs RegAddr.CellTemp2) : ℚ) * 0.1,
    cell_temp_3 := (toSigned16 (regs RegAddr.CellTemp3) : ℚ) * 0.1,
    cell_temp_4 := (toSigned16 (regs RegAddr.CellTemp4) : ℚ) * 0.1,
    heater_level := (regs RegAddr.HeaterLevel : ℚ) * 0.3922 }

lemma pbind_ok {α β : Type} (a : α) (s : RwState)
    (f : α → RwState → POutcome β × RwState) :
    pbind (.ok a, s) f = f a s := rfl

lemma pbind_err {α β : Type} (e : Error) (s : RwState)
    (f : α → RwState → POutcome β × RwState) :
    pbind (.err e, s) f = (.err e, s) := rfl

lemma pbind_assertFail {α β : Type} (s : RwState)
    (f : α → RwState → POutcome β × RwState) :
    pbind ((.assertFail : POutcome α), s) f = (.assertFail, s) := rfl

lemma stateIrrel_pbind {α β : Type} {m : RwState → POutcome α × RwState}
    {f : α → RwState → POutcome β × RwState}
    (hm : StateIrrel m) (hf : ∀ a, StateIrrel (f a)) :
    StateIrrel (fun s => pbind (m s) f) := by
  intro s s'
  have h : (m s).1 = (m s').1 := hm s s'
  rcases hx : m s with ⟨x, t⟩
  rcases hx' : m s' with ⟨x', t'⟩
  rw [hx, hx'] at h
  have h2 : x = x' := h
  subst h2
  show (pbind (m s) f).1 = (pbind (m s') f).1
  rw [hx, hx']
  cases x with
  | ok a => exact hf a t t'
  | err e => rfl
  | assertFail => rfl

lemma stateIrrel_read_register (bat : Battery) (d : Device) (a n : Nat) :
    StateIrrel (fun s => read_register bat d s a n) := by
  intro s s'
  unfold read_register
  cases d bat.addr a n <;> rfl

lemma stateIrrel_read_u16 (bat : Battery) (d : Device) (a : Nat) :
    StateIrrel (fun s => read_u16 bat d s a) := by
  unfold read_u16
  exact stateIrrel_pbind (stateIrrel_read_register bat d a 1)
    (fun ws s s' => by split <;> rfl)

lemma stateIrrel_read_i16 (bat : Battery) (d : Device) (a : Nat) :
    StateIrrel (fun s => read_i16 bat d s a) := by
  unfold read_i16
  exact stateIrrel_pbind (stateIrrel_read_register bat d a 1)
    (fun ws s s' => by split <;> rfl)

lemma stateIrrel_read_u32 (bat : Battery) (d : Device) (a : Nat) :
    StateIrrel (fun s => read_u32 bat d s a) := by
  unfold read_u32
  exact stateIrrel_pbind (stateIrrel_read_register bat d a 2)
    (fun ws s s' => by split <;> rfl)

lemma stateIrrel_current (bat : Battery) (d : Device) :
    StateIrrel (fun s => current bat d s) := by
  unfold current
  exact stateIrrel_pbind (stateIrrel_read_i16 bat d RegAddr.Current)
    (fun x s s' => rfl)

lemma stateIrrel_voltage (bat : Battery) (d : Device) :
    StateIrrel (fun s => voltage bat d s) := by
  unfold voltage
  exact stateIrrel_pbind (stateIrrel_read_u16 bat d RegAddr.Voltage)
    (fun x s s' => rfl)

lemma stateIrrel_remaining_charge (bat : Battery) (d : Device) :
    StateIrrel (fun s => remaining_charge bat d s) := by
  unfold remaining_charge
  exact stateIrrel_pbind (stateIrrel_read_u32 bat d RegAddr.RemainingCharge)
    (fun x s s' => rfl)

lemma stateIrrel_capacity (bat : Battery) (d : Device) :
    StateIrrel (fun s => capacity bat d s) := by
  unfold capacity
  exact stateIrrel_pbind (stateIrrel_read_u32 bat d RegAddr.Capacity)
    (fun x s s' => rfl)

lemma stateIrrel_cycle_number (bat : Battery) (d : Device) :
    StateIrrel (fun s => cycle_number bat d s) := by
  unfold cycle_number
  exact stateIrrel_pbind (stateIrrel_read_u16 bat d RegAddr.CycleNumber)
    (fun x s s' => rfl)

lemma stateIrrel_cell_voltage_1 (bat : Battery) (d : Device) :
    StateIrrel (fun s => cell_voltage_1 bat d s) := by
  unfold cell_voltage_1
  exact stateIrrel_pbind (stateIrrel_read_u16 bat d RegAddr.CellVoltage1)
    (fun x s s' => rfl)

lemma stateIrrel_cell_voltage_2 (bat : Battery) (d : Device) :
    StateIrrel (fun s => cell_voltage_2 bat d s) := by
  unfold cell_voltage_2
  exact stateIrrel_pbind (stateIrrel_read_u16 bat d RegAddr.CellVoltage2)
    (fun x s s' => rfl)

lemma stateIrrel_cell_voltage_3 (bat : Battery) (d : Device) :
    StateIrrel (fun s => cell_voltage_3 bat d s) := by
  unfold cell_voltage_3
  exact stateIrrel_pbind (stateIrrel_read_u16 bat d RegAddr.CellVoltage3)
    (fun x s s' => rfl)

lemma stateIrrel_cell_voltage_4 (bat : Battery) (d : Device) :
    StateIrrel (fun s => cell_voltage_4 bat d s) := by
  unfold cell_voltage_4
  exact stateIrrel_pbind (stateIrrel_read_u16 bat d RegAddr.CellVoltage4)
    (fun x s s' => rfl)

lemma stateIrrel_cell_temp_1 (bat : Battery) (d : Device) :
    StateIrrel (fun s => cell_temp_1 bat d s) := by
  unfold cell_temp_1
  exact stateIrrel_pbind (stateIrrel_read_i16 bat d RegAddr.CellTemp1)
    (fun x s s' => rfl)

lemma stateIrrel_cell_temp_2 (bat : Battery) (d : Device) :
    StateIrrel (fun s => cell_temp_2 bat d s) := by
  unfold cell_temp_2
  exact stateIrrel_pbind (stateIrrel_read_i16 bat d RegAddr.CellTemp2)
    (fun x s s' => rfl)

lemma stateIrrel_cell_temp_3 (bat : Battery) (d : Device) :
    StateIrrel (fun s => cell_temp_3 bat d s) := by
  unfold cell_temp_3
  exact stateIrrel_pbind (stateIrrel_read_i16 bat d RegAddr.CellTemp3)
    (fun x s s' => rfl)

lemma stateIrrel_cell_temp_4 (bat : Battery) (d : Device) :
    StateIrrel (fun s => cell_temp_4 bat d s) := by
  unfold cell_temp_4
  exact stateIrrel_pbind (stateIrrel_read_i16 bat d RegAddr.CellTemp4)
    (fun x s s' => rfl)

lemma stateIrrel_heater_level (bat : Battery) (d : Device) :
    StateIrrel (fun s => heater_level bat d s) := by
  unfold heater_level
  exact stateIrrel_pbind (stateIrrel_read_u16 bat d RegAddr.HeaterLevel)
    (fun x s s' => rfl)

lemma stateIrrel_read_all (bat : Battery) (d : Device) :
    StateIrrel (fun s => read_all bat d s) := by
  unfold read_all
  refine stateIrrel_pbind (stateIrrel_current bat d) (fun v1 => ?_)
  refine stateIrrel_pbind (stateIrrel_voltage bat d) (fun v2 => ?_)
  refine stateIrrel_pbind (stateIrrel_remaining_charge bat d) (fun v3 => ?_)
  refine stateIrrel_pbind (stateIrrel_capacity bat d) (fun v4 => ?_)
  refine stateIrrel_pbind (stateIrrel_cell_voltage_1 bat d) (fun v5 => ?_)
  refine stateIrrel_pbind (stateIrrel_cell_voltage_2 bat d) (fun v6 => ?_)
  refine stateIrrel_pbind (stateIrrel_cell_voltage_3 bat d) (fun v7 => ?_)
  refine stateIrrel_pbind (stateIrrel_cell_voltage_4 bat d) (fun v8 => ?_)
  refine stateIrrel_pbind (stateIrrel_cycle_number bat d) (fun v9 => ?_)
  refine stateIrrel_pbind (stateIrrel_cell_temp_1 bat d) (fun v10 => ?_)
  refine stateIrrel_pbind (stateIrrel_cell_temp_2 bat d) (fun v11 => ?_)
  refine stateIrrel_pbind (stateIrrel_cell_temp_3 bat d) (fun v12 => ?_)
  refine stateIrrel_pbind (stateIrrel_cell_temp_4 bat d) (fun v13 => ?_)
  refine stateIrrel_pbind (stateIrrel_heater_level bat d) (fun v14 => ?_)
  exact fun s s' => rfl

lemma read_u16_devTable (bat : Battery) (regs : Nat → Nat) (s : RwState)
    (a : Nat) :
    read_u16 bat (devTable regs) s a =
      (.ok (regs a), ⟨bat.addr, s.trace ++ [(bat.addr, a, 1)]⟩) := rfl

lemma read_i16_devTable (bat : Battery) (regs : Nat → Nat) (s : RwState)
    (a : Nat) :
    read_i16 bat (devTable regs) s a =
      (.ok (toSigned16 (regs a)),
       ⟨bat.addr, s.trace ++ [(bat.addr, a, 1)]⟩) := rfl

lemma read_u32_devTable (bat : Battery) (regs : Nat → Nat) (s : RwState)
    (a : Nat) :
    read_u32 bat (devTable regs) s a =
      (.ok (regs (a + 1) + (regs a) <<< 16),
       ⟨bat.addr, s.trace ++ [(bat.addr, a, 2)]⟩) := rfl

lemma current_devTable (bat : Battery) (regs : Nat → Nat) (s : RwState) :
    current bat (devTable regs) s =
      (.ok ((i16_swap_bytes (toSigned16 (regs RegAddr.Current)) : ℚ) * 0.01),
       ⟨bat.addr, s.trace ++ [(bat.addr, RegAddr.Current, 1)]⟩) := rfl

lemma voltage_devTable (bat : Battery) (regs : Nat → Nat) (s : RwState) :
    voltage bat (devTable regs) s =
      (.ok ((regs RegAddr.Voltage : ℚ) * 0.1),
       ⟨bat.addr, s.trace ++ [(bat.addr, RegAddr.Voltage, 1)]⟩) := rfl

lemma remaining_charge_devTable (bat : Battery) (regs : Nat → Nat)
    (s : RwState) :
    remaining_charge bat (devTable regs) s =
      (.ok (((regs (RegAddr.RemainingCharge + 1) +
              (regs RegAddr.RemainingCharge) <<< 16 : Nat) : ℚ) * 0.001),
       ⟨bat.addr, s.trace ++ [(bat.addr, RegAddr.RemainingCharge, 2)]⟩) := rfl

lemma capacity_devTable (bat : Battery) (regs : Nat → Nat) (s : RwState) :
    capacity bat (devTable regs) s =
      (.ok (((regs (RegAddr.Capacity + 1) +
              (regs RegAddr.Capacity) <<< 16 : Nat) : ℚ) * 0.001),
       ⟨bat.addr, s.trace ++ [(bat.addr, RegAddr.Capacity, 2)]⟩) := rfl

lemma cycle_number_devTable (bat : Battery) (regs : Nat → Nat) (s : RwState) :
    cycle_number bat (devTable regs) s =
      (.ok (regs RegAddr.CycleNumber),
       ⟨bat.addr, s.trace ++ [(bat.addr, RegAddr.CycleNumber, 1)]⟩) := rfl

lemma cell_voltage_1_devTable (bat : Battery) (regs : Nat → Nat)
    (s : RwState) :
    cell_voltage_1 bat (devTable regs) s =
      (.ok ((regs RegAddr.CellVoltage1 : ℚ) * 0.1),
       ⟨bat.addr, s.trace ++ [(bat.addr, RegAddr.CellVoltage1, 1)]⟩) := rfl

lemma cell_voltage_2_devTable (bat : Battery) (regs : Nat → Nat)
    (s : RwState) :
    cell_voltage_2 bat (devTable regs) s =
      (.ok ((regs RegAddr.CellVoltage2 : ℚ) * 0.1),
       ⟨bat.addr, s.trace ++ [(bat.addr, RegAddr.CellVoltage2, 1)]⟩) := rfl

lemma cell_voltage_3_devTable (bat : Battery) (regs : Nat → Nat)
    (s : RwState) :
    cell_voltage_3 bat (devTable regs) s =
      (.ok ((regs RegAddr.CellVoltage3 : ℚ) * 0.1),
       ⟨bat.addr, s.trace ++ [(bat.addr, RegAddr.CellVoltage3, 1)]⟩) := rfl

lemma cell_voltage_4_devTable (bat : Battery) (regs : Nat → Nat)
    (s : RwState) :
    cell_voltage_4 bat (devTable regs) s =
      (.ok ((regs RegAddr.CellVoltage4 : ℚ) * 0.1),
       ⟨bat.addr, s.trace ++ [(bat.addr, RegAddr.CellVoltage4, 1)]⟩) := rfl

lemma cell_temp_1_devTable (bat : Battery) (regs : Nat → Nat) (s : RwState) :
    cell_temp_1 bat (devTable regs) s =
      (.ok ((toSigned16 (regs RegAddr.CellTemp1) : ℚ) * 0.1),
       ⟨bat.addr, s.trace ++ [(bat.addr, RegAddr.CellTemp1, 1)]⟩) := rfl

lemma cell_temp_2_devTable (bat : Battery) (regs : Nat → Nat) (s : RwState) :
    cell_temp_2 bat (devTable regs) s =
      (.ok ((toSigned16 (regs RegAddr.CellTemp2) : ℚ) * 0.1),
       ⟨bat.addr, s.trace ++ [(bat.addr, RegAddr.CellTemp2, 1)]⟩) := rfl

lemma cell_temp_3_devTable (bat : Battery) (regs : Nat → Nat) (s : RwState) :
    cell_temp_3 bat (devTable regs) s =
      (.ok ((toSigned16 (regs RegAddr.CellTemp3) : ℚ) * 0.1),
       ⟨bat.addr, s.trace ++ [(bat.addr, RegAddr.CellTemp3, 1)]⟩) := rfl

lemma cell_temp_4_devTable (bat : Battery) (regs : Nat → Nat) (s : RwState) :
    cell_temp_4 bat (devTable regs) s =
      (.ok ((toSigned16 (regs RegAddr.CellTemp4) : ℚ) * 0.1),
       ⟨bat.addr, s.trace ++ [(bat.addr, RegAddr.CellTemp4, 1)]⟩) := rfl

lemma heater_level_devTable (bat : Battery) (regs : Nat → Nat) (s : RwState) :
    heater_level bat (devTable regs) s =
      (.ok ((regs RegAddr.HeaterLevel : ℚ) * 0.3922),
       ⟨bat.addr, s.trace ++ [(bat.addr, RegAddr.HeaterLevel, 1)]⟩) := rfl

lemma read_register_devFail_ne (bat : Battery) (a : Nat) (s : RwState)
    (addr n : Nat) (h : ¬ addr = a) :
    read_register bat (devFail a) s addr n =
      (.ok (List.replicate n 0),
       ⟨bat.addr, s.trace ++ [(bat.addr, addr, n)]⟩) := by
  simp [read_register, devFail, h]

lemma read_register_devFail_eq (bat : Battery) (a : Nat) (s : RwState)
    (n : Nat) :
    read_register bat (devFail a) s a n =
      (.err .Timeout, ⟨bat.addr, s.trace ++ [(bat.addr, a, n)]⟩) := by
  simp [read_register, devFail]

lemma read_u16_devFail_ne (bat : Battery) (a : Nat) (s : RwState)
    (addr : Nat) (h : ¬ addr = a) :
    read_u16 bat (devFail a) s addr =
      (.ok 0, ⟨bat.addr, s.trace ++ [(bat.addr, addr, 1)]⟩) := by
  simp [read_u16, read_register, devFail, h, pbind]

lemma read_i16_devFail_ne (bat : Battery) (a : Nat) (s : RwState)
    (addr : Nat) (h : ¬ addr = a) :
    read_i16 bat (devFail a) s addr =
      (.ok 0, ⟨bat.addr, s.trace ++ [(bat.addr, addr, 1)]⟩) := by
  simp [read_i16, read_register, devFail, h, pbind, toSigned16]

lemma read_u32_devFail_ne (bat : Battery) (a : Nat) (s : RwState)
    (addr : Nat) (h : ¬ addr = a) :
    read_u32 bat (devFail a) s addr =
      (.ok 0, ⟨bat.addr, s.trace ++ [(bat.addr, addr, 2)]⟩) := by
  simp [read_u32, read_register, devFail, h, pbind]

lemma current_devFail_ne (bat : Battery) (a : Nat) 
    (h : ¬ RegAddr.Current = a) (s : RwState) :
    current bat (devFail a) s =
      (.ok 0, ⟨bat.addr, s.trace ++ [(bat.addr, RegAddr.Current, 1)]⟩) := by
  simp [current, read_i16_devFail_ne bat a s RegAddr.Current h, pbind_ok,
    i16_swap_bytes, toU16, swapBytes16, toSigned16]

lemma current_devFail_eq (bat : Battery) (s : RwState) :
    current bat (devFail RegAddr.Current) s =
      (.err .Timeout,
       ⟨bat.addr, s.trace ++ [(bat.addr, RegAddr.Current, 1)]⟩) := by
  simp [current, read_i16, read_register_devFail_eq, pbind_err, pbind]

lemma voltage_devFail_ne (bat : Battery) (a : Nat) 
    (h : ¬ RegAddr.Voltage = a) (s : RwState) :
    voltage bat (devFail a) s =
      (.ok 0, ⟨bat.addr, s.trace ++ [(bat.addr, RegAddr.Voltage, 1)]⟩) := by
  simp [voltage, read_u16_devFail_ne bat a s RegAddr.Voltage h, pbind_ok]

lemma voltage_devFail_eq (bat : Battery) (s : RwState) :
    voltage bat (devFail RegAddr.Voltage) s =
      (.err .Timeout,
       ⟨bat.addr, s.trace ++ [(bat.addr, RegAddr.Voltage, 1)]⟩) := by
  simp [voltage, read_u16, read_register_devFail_eq, pbind_err, pbind]

lemma remaining_charge_devFail_ne (bat : Battery) (a : Nat) 
    (h : ¬ RegAddr.RemainingCharge = a) (s : RwState) :
    remaining_charge bat (devFail a) s =
      (.ok 0,
       ⟨bat.addr, s.trace ++ [(bat.addr, RegAddr.RemainingCharge, 2)]⟩) := by
  simp [remaining_charge,
    read_u32_devFail_ne bat a s RegAddr.RemainingCharge h, pbind_ok]

lemma remaining_charge_devFail_eq (bat : Battery) (s : RwState) :
    remaining_charge bat (devFail RegAddr.RemainingCharge) s =
      (.err .Timeout,
       ⟨bat.addr, s.trace ++ [(bat.addr, RegAddr.RemainingCharge, 2)]⟩) := by
  simp [remaining_charge, read_u32, read_register_devFail_eq, pbind_err, pbind]

lemma capacity_devFail_ne (bat : Battery) (a : Nat) 
    (h : ¬ RegAddr.Capacity = a) (s : RwState) :
    capacity bat (devFail a) s =
      (.ok 0, ⟨bat.addr, s.trace ++ [(bat.addr, RegAddr.Capacity, 2)]⟩) := by
  simp [capacity, read_u32_devFail_ne bat a s RegAddr.Capacity h, pbind_ok]

lemma capacity_devFail_eq (bat : Battery) (s : RwState) :
    capacity bat (devFail RegAddr.Capacity) s =
      (.err .Timeout,
       ⟨bat.addr, s.trace ++ [(bat.addr, RegAddr.Capacity, 2)]⟩) := by
  simp [capacity, read_u32, read_register_devFail_eq, pbind_err, pbind]

lemma cycle_number_devFail_ne (bat : Battery) (a : Nat) 
    (h : ¬ RegAddr.CycleNumber = a) (s : RwState) :
    cycle_number bat (devFail a) s =
      (.ok 0, ⟨bat.addr, s.trace ++ [(bat.addr, RegAddr.CycleNumber, 1)]⟩) := by
  simp [cycle_number, read_u16_devFail_ne bat a s RegAddr.CycleNumber h,
    pbind_ok]

lemma cycle_number_devFail_eq (bat : Battery) (s : RwState) :
    cycle_number bat (devFail RegAddr.CycleNumber) s =
      (.err .Timeout,
       ⟨bat.addr, s.trace ++ [(bat.addr, RegAddr.CycleNumber, 1)]⟩) := by
  simp [cycle_number, read_u16, read_register_devFail_eq, pbind_err, pbind]

lemma cell_voltage_1_devFail_ne (bat : Battery) (a : Nat) 
    (h : ¬ RegAddr.CellVoltage1 = a) (s : RwState) :
    cell_voltage_1 bat (devFail a) s =
      (.ok 0,
       ⟨bat.addr, s.trace ++ [(bat.addr, RegAddr.CellVoltage1, 1)]⟩) := by
  simp [cell_voltage_1, read_u16_devFail_ne bat a s RegAddr.CellVoltage1 h,
    pbind_ok]

lemma cell_voltage_1_devFail_eq (bat : Battery) (s : RwState) :
    cell_voltage_1 bat (devFail RegAddr.CellVoltage1) s =
      (.err .Timeout,
       ⟨bat.addr, s.trace ++ [(bat.addr, RegAddr.CellVoltage1, 1)]⟩) := by
  simp [cell_voltage_1, read_u16, read_register_devFail_eq, pbind_err, pbind]

lemma cell_voltage_2_devFail_ne (bat : Battery) (a : Nat) 
    (h : ¬ RegAddr.CellVoltage2 = a) (s : RwState) :
    cell_voltage_2 bat (devFail a) s =
      (.ok 0,
       ⟨bat.addr, s.trace ++ [(bat.addr, RegAddr.CellVoltage2, 1)]⟩) := by
  simp [cell_voltage_2, read_u16_devFail_ne bat a s RegAddr.CellVoltage2 h,
    pbind_ok]

lemma cell_voltage_2_devFail_eq (bat : Battery) (s : RwState) :
    cell_voltage_2 bat (devFail RegAddr.CellVoltage2) s =
      (.err .Timeout,
       ⟨bat.addr, s.trace ++ [(bat.addr, RegAddr.CellVoltage2, 1)]⟩) := by
  simp [cell_voltage_2, read_u16, read_register_devFail_eq, pbind_err, pbind]

lemma cell_voltage_3_devFail_ne (bat : Battery) (a : Nat) 
    (h : ¬ RegAddr.CellVoltage3 = a) (s : RwState) :
    cell_voltage_3 bat (devFail a) s =
      (.ok 0,
       ⟨bat.addr, s.trace ++ [(bat.addr, RegAddr.CellVoltage3, 1)]⟩) := by
  simp [cell_voltage_3, read_u16_devFail_ne bat a s RegAddr.CellVoltage3 h,
    pbind_ok]

lemma cell_voltage_3_devFail_eq (bat : Battery) (s : RwState) :
    cell_voltage_3 bat (devFail RegAddr.CellVoltage3) s =
      (.err .Timeout,
       ⟨bat.addr, s.trace ++ [(bat.addr, RegAddr.CellVoltage3, 1)]⟩) := by
  simp [cell_voltage_3, read_u16, read_register_devFail_eq, pbind_err, pbind]

lemma cell_voltage_4_devFail_ne (bat : Battery) (a : Nat) 
    (h : ¬ RegAddr.CellVoltage4 = a) (s : RwState) :
    cell_voltage_4 bat (devFail a) s =
      (.ok 0,
       ⟨bat.addr, s.trace ++ [(bat.addr, RegAddr.CellVoltage4, 1)]⟩) := by
  simp [cell_voltage_4, read_u16_devFail_ne bat a s RegAddr.CellVoltage4 h,
    pbind_ok]

lemma cell_voltage_4_devFail_eq (bat : Battery) (s : RwState) :
    cell_voltage_4 bat (devFail RegAddr.CellVoltage4) s =
      (.err .Timeout,
       ⟨bat.addr, s.trace ++ [(bat.addr, RegAddr.CellVoltage4, 1)]⟩) := by
  simp [cell_voltage_4, read_u16, read_register_devFail_eq, pbind_err, pbind]

lemma cell_temp_1_devFail_ne (bat : Battery) (a : Nat) 
    (h : ¬ RegAddr.CellTemp1 = a) (s : RwState) :
    cell_temp_1 bat (devFail a) s =
      (.ok 0, ⟨bat.addr, s.trace ++ [(bat.addr, RegAddr.CellTemp1, 1)]⟩) := by
  simp [cell_temp_1, read_i16_devFail_ne bat a s RegAddr.CellTemp1 h, pbind_ok]

lemma cell_temp_1_devFail_eq (bat : Battery) (s : RwState) :
    cell_temp_1 bat (devFail RegAddr.CellTemp1) s =
      (.err .Timeout,
       ⟨bat.addr, s.trace ++ [(bat.addr, RegAddr.CellTemp1, 1)]⟩) := by
  simp [cell_temp_1, read_i16, read_register_devFail_eq, pbind_err, pbind]

lemma cell_temp_2_devFail_ne (bat : Battery) (a : Nat) 
    (h : ¬ RegAddr.CellTemp2 = a) (s : RwState) :
    cell_temp_2 bat (devFail a) s =
      (.ok 0, ⟨bat.addr, s.trace ++ [(bat.addr, RegAddr.CellTemp2, 1)]⟩) := by
  simp [cell_temp_2, read_i16_devFail_ne bat a s RegAddr.CellTemp2 h, pbind_ok]

lemma cell_temp_2_devFail_eq (bat : Battery) (s : RwState) :
    cell_temp_2 bat (devFail RegAddr.CellTemp2) s =
      (.err .Timeout,
       ⟨bat.addr, s.trace ++ [(bat.addr, RegAddr.CellTemp2, 1)]⟩) := by
  simp [cell_temp_2, read_i16, read_register_devFail_eq, pbind_err, pbind]

lemma cell_temp_3_devFail_ne (bat : Battery) (a : Nat) 
    (h : ¬ RegAddr.CellTemp3 = a) (s : RwState) :
    cell_temp_3 bat (devFail a) s =
      (.ok 0, ⟨bat.addr, s.trace ++ [(bat.addr, RegAddr.CellTemp3, 1)]⟩) := by
  simp [cell_temp_3, read_i16_devFail_ne bat a s RegAddr.CellTemp3 h, pbind_ok]

lemma cell_temp_3_devFail_eq (bat : Battery) (s : RwState) :
    cell_temp_3 bat (devFail RegAddr.CellTemp3) s =
      (.err .Timeout,
       ⟨bat.addr, s.trace ++ [(bat.addr, RegAddr.CellTemp3, 1)]⟩) := by
  simp [cell_temp_3, read_i16, read_register_devFail_eq, pbind_err, pbind]

lemma cell_temp_4_devFail_ne (bat : Battery) (a : Nat) 
    (h : ¬ RegAddr.CellTemp4 = a) (s : RwState) :
    cell_temp_4 bat (devFail a) s =
      (.ok 0, ⟨bat.addr, s.trace ++ [(bat.addr, RegAddr.CellTemp4, 1)]⟩) := by
  simp [cell_temp_4, read_i16_devFail_ne bat a s RegAddr.CellTemp4 h, pbind_ok]

lemma cell_temp_4_devFail_eq (bat : Battery) (s : RwState) :
    cell_temp_4 bat (devFail RegAddr.CellTemp4) s =
      (.err .Timeout,
       ⟨bat.addr, s.trace ++ [(bat.addr, RegAddr.CellTemp4, 1)]⟩) := by
  simp [cell_temp_4, read_i16, read_register_devFail_eq, pbind_err, pbind]

lemma heater_level_devFail_ne (bat : Battery) (a : Nat) 
    (h : ¬ RegAddr.HeaterLevel = a) (s : RwState) :
    heater_level bat (devFail a) s =
      (.ok 0, ⟨bat.addr, s.trace ++ [(bat.addr, RegAddr.HeaterLevel, 1)]⟩) := by
  simp [heater_level, read_u16_devFail_ne bat a s RegAddr.HeaterLevel h,
    pbind_ok]

lemma heater_level_devFail_eq (bat : Battery) (s : RwState) :
    heater_level bat (devFail RegAddr.HeaterLevel) s =
      (.err .Timeout,
       ⟨bat.addr, s.trace ++ [(bat.addr, RegAddr.HeaterLevel, 1)]⟩) := by
  simp [heater_level, read_u16, read_register_devFail_eq, pbind_err, pbind]

lemma read_all_devTable (bat : Battery) (regs : Nat → Nat) (s : RwState) :
    read_all bat (devTable regs) s =
      (.ok (decodeState regs),
       ⟨bat.addr, s.trace ++ readAllRequests bat⟩) := by
  simp only [read_all, current_devTable, voltage_devTable,
    remaining_charge_devTable, capacity_devTable, cell_voltage_1_devTable,
    cell_voltage_2_devTable, cell_voltage_3_devTable, cell_voltage_4_devTable,
    cycle_number_devTable, cell_temp_1_devTable, cell_temp_2_devTable,
    cell_temp_3_devTable, cell_temp_4_devTable, heater_level_devTable,
    pbind_ok, decodeState, readAllRequests, List.append_assoc,
    List.cons_append, List.nil_append]

lemma toU16_toSigned16 (w : Nat) (hw : w < 65536) :
    toU16 (toSigned16 w) = w := by
  unfold toU16 toSigned16
  split <;> omega

lemma i16_swap_bytes_toSigned16 (w : Nat) (hw : w < 65536) :
    i16_swap_bytes (toSigned16 w) = toSigned16 (swapBytes16 w) := by
  unfold i16_swap_bytes
  rw [toU16_toSigned16 w hw]

lemma engineWF_devTable (regs : Nat → Nat) : EngineWF (devTable regs) := by
  intro slave addr size ws h
  simp only [devTable, EngineResponse.words.injEq] at h
  subst h
  simp

/-- C1 (counterexample): with the first word on the wire at 0x13b4 being
0x2710 and the second 0, the code decodes `remaining_charge` to 655360.0
(first word in the HIGH 16 bits), not 10.0 as the claim's
`first | (second << 16)` layout predicts. -/
theorem read_u32_first_word_low_counterexample :
    (remaining_charge bat0 (devTable regsC1) st0).1 = .ok 655360 ∧
    (remaining_charge bat0 (devTable regsC1) st0).1 ≠ .ok 10 := by
  constructor
  · norm_num [remaining_charge, read_u32, read_register, devTable, regsC1,
      pbind, RegAddr.RemainingCharge, Nat.shiftLeft_eq]
  · norm_num [remaining_charge, read_u32, read_register, devTable, regsC1,
      pbind, RegAddr.RemainingCharge, Nat.shiftLeft_eq]

/-- C1 (amended): for every two-word quantity, the raw 32-bit value is
formed from the two returned words `[first, second]` as
`second | (first << 16)`: the first word returned holds the
most-significant 16 bits; with words `[0x0000, 0x2710]` and scale 0.001
the decoded value is 10.0 (see the witness). -/
theorem read_u32_word_order (w0 w1 : Nat) (h0 : w0 < 65536)
    (h1 : w1 < 65536) (bat : Battery) (s : RwState) :
    (remaining_charge bat (devTable (regsPair w0 w1)) s).1
      = .ok (((w1 + w0 * 65536 : Nat) : ℚ) * 0.001)
  ∧ (capacity bat (devTable (regsPair w0 w1)) s).1
      = .ok (((w1 + w0 * 65536 : Nat) : ℚ) * 0.001) := by
  constructor
  · norm_num [remaining_charge_devTable, regsPair, RegAddr.RemainingCharge,
      RegAddr.Capacity, Nat.shiftLeft_eq]
  · norm_num [capacity_devTable, regsPair, RegAddr.RemainingCharge,
      RegAddr.Capacity, Nat.shiftLeft_eq]

/-- Witness for C1 (amended): wire words `[0x0000, 0x2710]` decode to
exactly 10.0. -/
theorem read_u32_word_order_witness :
    (remaining_charge bat0 (devTable (regsPair 0 10000)) st0).1
      = .ok (((10000 + 0 * 65536 : Nat) : ℚ) * 0.001)
  ∧ (((10000 + 0 * 65536 : Nat) : ℚ) * 0.001 = 10) :=
  ⟨(read_u32_word_order 0 10000 (by decide) (by decide) bat0 st0).1,
   by norm_num⟩

/-- C2: for every raw word `w` at the current register (0x13b2),
`current` swaps the two bytes of `w` before interpreting it as a signed
16-bit integer and multiplies by 0.01. -/
theorem current_byte_swap (w : Nat) (hw : w < 65536) (bat : Battery)
    (s : RwState) :
    (current bat (devTable (regsConst w)) s).1
      = .ok (((toSigned16 (swapBytes16 w) : Int) : ℚ) * 0.01) := by
  rw [current_devTable]
  simp [regsConst, i16_swap_bytes_toSigned16 w hw]

/-- Witness for C2: raw word 0x6400 decodes to exactly 1.00. -/
theorem current_byte_swap_witness :
    (current bat0 (devTable (regsConst 0x6400)) st0).1
      = .ok (((toSigned16 (swapBytes16 0x6400) : Int) : ℚ) * 0.01)
  ∧ (((toSigned16 (swapBytes16 0x6400) : Int) : ℚ) * 0.01 = 1) :=
  ⟨current_byte_swap 0x6400 (by decide) bat0 st0,
   by norm_num [swapBytes16, toSigned16]⟩

/-- C4: `read_all` invokes the accessors in sequence; injecting a
timeout at any one of the 14 registers makes `read_all` return
`Err(Timeout)` unchanged, with exactly the requests up to and including
the failing one issued and none after; with no failure the result is a
fully populated `BatteryState` after all 14 requests. -/
theorem read_all_fail_fast (bat : Battery) (slv : Nat) :
    (read_all bat (devFail RegAddr.Current) ⟨slv, []⟩
      = (.err .Timeout, ⟨bat.addr, (readAllRequests bat).take 1⟩))
  ∧ (read_all bat (devFail RegAddr.Voltage) ⟨slv, []⟩
      = (.err .Timeout, ⟨bat.addr, (readAllRequests bat).take 2⟩))
  ∧ (read_all bat (devFail RegAddr.RemainingCharge) ⟨slv, []⟩
      = (.err .Timeout, ⟨bat.addr, (readAllRequests bat).take 3⟩))
  ∧ (read_all bat (devFail RegAddr.Capacity) ⟨slv, []⟩
      = (.err .Timeout, ⟨bat.addr, (readAllRequests bat).take 4⟩))
  ∧ (read_all bat (devFail RegAddr.CellVoltage1) ⟨slv, []⟩
      = (.err .Timeout, ⟨bat.addr, (readAllRequests bat).take 5⟩))
  ∧ (read_all bat (devFail RegAddr.CellVoltage2) ⟨slv, []⟩
      = (.err .Timeout, ⟨bat.addr, (readAllRequests bat).take 6⟩))
  ∧ (read_all bat (devFail RegAddr.CellVoltage3) ⟨slv, []⟩
      = (.err .Timeout, ⟨bat.addr, (readAllRequests bat).take 7⟩))
  ∧ (read_all bat (devFail RegAddr.CellVoltage4) ⟨slv, []⟩
      = (.err .Timeout, ⟨bat.addr, (readAllRequests bat).take 8⟩))
  ∧ (read_all bat (devFail RegAddr.CycleNumber) ⟨slv, []⟩
      = (.err .Timeout, ⟨bat.addr, (readAllRequests bat).take 9⟩))
  ∧ (read_all bat (devFail RegAddr.CellTemp1) ⟨slv, []⟩
      = (.err .Timeout, ⟨bat.addr, (readAllRequests bat).take 10⟩))
  ∧ (read_all bat (devFail RegAddr.CellTemp2) ⟨slv, []⟩
      = (.err .Timeout, ⟨bat.addr, (readAllRequests bat).take 11⟩))
  ∧ (read_all bat (devFail RegAddr.CellTemp3) ⟨slv, []⟩
      = (.err .Timeout, ⟨bat.addr, (readAllRequests bat).take 12⟩))
  ∧ (read_all bat (devFail RegAddr.CellTemp4) ⟨slv, []⟩
      = (.err .Timeout, ⟨bat.addr, (readAllRequests bat).take 13⟩))
  ∧ (read_all bat (devFail RegAddr.HeaterLevel) ⟨slv, []⟩
      = (.err .Timeout, ⟨bat.addr, (readAllRequests bat).take 14⟩))
  ∧ (∃ st, read_all bat (devTable (regsConst 0)) ⟨slv, []⟩
      = (.ok st, ⟨bat.addr, readAllRequests bat⟩)) := by
  refine ⟨?_, ?_, ?_, ?_, ?_, ?_, ?_, ?_, ?_, ?_, ?_, ?_, ?_, ?_, ?_⟩
  · simp only [read_all, current_devFail_eq, pbind_err, readAllRequests,
      List.nil_append, List.cons_append, List.append_assoc]
    rfl
  · simp only [read_all,
      current_devFail_ne bat RegAddr.Voltage (by decide),
      voltage_devFail_eq, pbind_ok, pbind_err, readAllRequests,
      List.nil_append, List.cons_append, List.append_assoc]
    rfl
  · simp only [read_all,
      current_devFail_ne bat RegAddr.RemainingCharge (by decide),
      voltage_devFail_ne bat RegAddr.RemainingCharge (by decide),
      remaining_charge_devFail_eq, pbind_ok, pbind_err, readAllRequests,
      List.nil_append, List.cons_append, List.append_assoc]
    rfl
  · simp only [read_all,
      current_devFail_ne bat RegAddr.Capacity (by decide),
      voltage_devFail_ne bat RegAddr.Capacity (by decide),
      remaining_charge_devFail_ne bat RegAddr.Capacity (by decide),
      capacity_devFail_eq, pbind_ok, pbind_err, readAllRequests,
      List.nil_append, List.cons_append, List.append_assoc]
    rfl
  · simp only [read_all,
      current_devFail_ne bat RegAddr.CellVoltage1 (by decide),
      voltage_devFail_ne bat RegAddr.CellVoltage1 (by decide),
      remaining_charge_devFail_ne bat RegAddr.CellVoltage1 (by decide),
      capacity_devFail_ne bat RegAddr.CellVoltage1 (by decide),
      cell_voltage_1_devFail_eq, pbind_ok, pbind_err, readAllRequests,
      List.nil_append, List.cons_append, List.append_assoc]
    rfl
  · simp only [read_all,
      current_devFail_ne bat RegAddr.CellVoltage2 (by decide),
      voltage_devFail_ne bat RegAddr.CellVoltage2 (by decide),
      remaining_charge_devFail_ne bat RegAddr.CellVoltage2 (by decide),
      capacity_devFail_ne bat RegAddr.CellVoltage2 (by decide),
      cell_voltage_1_devFail_ne bat RegAddr.CellVoltage2 (by decide),
      cell_voltage_2_devFail_eq, pbind_ok, pbind_err, readAllRequests,
      List.nil_append, List.cons_append, List.append_assoc]
    rfl
  · simp only [read_all,
      current_devFail_ne bat RegAddr.CellVoltage3 (by decide),
      voltage_devFail_ne bat RegAddr.CellVoltage3 (by decide),
      remaining_charge_devFail_ne bat RegAddr.CellVoltage3 (by decide),
      capacity_devFail_ne bat RegAddr.CellVoltage3 (by decide),
      cell_voltage_1_devFail_ne bat RegAddr.CellVoltage3 (by decide),
      cell_voltage_2_devFail_ne bat RegAddr.CellVoltage3 (by decide),
      cell_voltage_3_devFail_eq, pbind_ok, pbind_err, readAllRequests,
      List.nil_append, List.cons_append, List.append_assoc]
    rfl
  · simp only [read_all,
      current_devFail_ne bat RegAddr.CellVoltage4 (by decide),
      voltage_devFail_ne bat RegAddr.CellVoltage4 (by decide),
      remaining_charge_devFail_ne bat RegAddr.CellVoltage4 (by decide),
      capacity_devFail_ne bat RegAddr.CellVoltage4 (by decide),
      cell_voltage_1_devFail_ne bat RegAddr.CellVoltage4 (by decide),
      cell_voltage_2_devFail_ne bat RegAddr.CellVoltage4 (by decide),
      cell_voltage_3_devFail_ne bat RegAddr.CellVoltage4 (by decide),
      cell_voltage_4_devFail_eq, pbind_ok, pbind_err, readAllRequests,
      List.nil_append, List.cons_append, List.append_assoc]
    rfl
  · simp only [read_all,
      current_devFail_ne bat RegAddr.CycleNumber (by decide),
      voltage_devFail_ne bat RegAddr.CycleNumber (by decide),
      remaining_charge_devFail_ne bat RegAddr.CycleNumber (by decide),
      capacity_devFail_ne bat RegAddr.CycleNumber (by decide),
      cell_voltage_1_devFail_ne bat RegAddr.CycleNumber (by decide),
      cell_voltage_2_devFail_ne bat RegAddr.CycleNumber (by decide),
      cell_voltage_3_devFail_ne bat RegAddr.CycleNumber (by decide),
      cell_voltage_4_devFail_ne bat RegAddr.CycleNumber (by decide),
      cycle_number_devFail_eq, pbind_ok, pbind_err, readAllRequests,
      List.nil_append, List.cons_append, List.append_assoc]
    rfl
  · simp only [read_all,
      current_devFail_ne bat RegAddr.CellTemp1 (by decide),
      voltage_devFail_ne bat RegAddr.CellTemp1 (by decide),
      remaining_charge_devFail_ne bat RegAddr.CellTemp1 (by decide),
      capacity_devFail_ne bat RegAddr.CellTemp1 (by decide),
      cell_voltage_1_devFail_ne bat RegAddr.CellTemp1 (by decide),
      cell_voltage_2_devFail_ne bat RegAddr.CellTemp1 (by decide),
      cell_voltage_3_devFail_ne bat RegAddr.CellTemp1 (by decide),
      cell_voltage_4_devFail_ne bat RegAddr.CellTemp1 (by decide),
      cycle_number_devFail_ne bat RegAddr.CellTemp1 (by decide),
      cell_temp_1_devFail_eq, pbind_ok, pbind_err, readAllRequests,
      List.nil_append, List.cons_append, List.append_assoc]
    rfl
  · simp only [read_all,
      current_devFail_ne bat RegAddr.CellTemp2 (by decide),
      voltage_devFail_ne bat RegAddr.CellTemp2 (by decide),
      remaining_charge_devFail_ne bat RegAddr.CellTemp2 (by decide),
      capacity_devFail_ne bat RegAddr.CellTemp2 (by decide),
      cell_voltage_1_devFail_ne bat RegAddr.CellTemp2 (by decide),
      cell_voltage_2_devFail_ne bat RegAddr.CellTemp2 (by decide),
      cell_voltage_3_devFail_ne bat RegAddr.CellTemp2 (by decide),
      cell_voltage_4_devFail_ne bat RegAddr.CellTemp2 (by decide),
      cycle_number_devFail_ne bat RegAddr.CellTemp2 (by decide),
      cell_temp_1_devFail_ne bat RegAddr.CellTemp2 (by decide),
      cell_temp_2_devFail_eq, pbind_ok, pbind_err, readAllRequests,
      List.nil_append, List.cons_append, List.append_assoc]
    rfl
  · simp only [read_all,
      current_devFail_ne bat RegAddr.CellTemp3 (by decide),
      voltage_devFail_ne bat RegAddr.CellTemp3 (by decide),
      remaining_charge_devFail_ne bat RegAddr.CellTemp3 (by decide),
      capacity_devFail_ne bat RegAddr.CellTemp3 (by decide),
      cell_voltage_1_devFail_ne bat RegAddr.CellTemp3 (by decide),
      cell_voltage_2_devFail_ne bat RegAddr.CellTemp3 (by decide),
      cell_voltage_3_devFail_ne bat RegAddr.CellTemp3 (by decide),
      cell_voltage_4_devFail_ne bat RegAddr.CellTemp3 (by decide),
      cycle_number_devFail_ne bat RegAddr.CellTemp3 (by decide),
      cell_temp_1_devFail_ne bat RegAddr.CellTemp3 (by decide),
      cell_temp_2_devFail_ne bat RegAddr.CellTemp3 (by decide),
      cell_temp_3_devFail_eq, pbind_ok, pbind_err, readAllRequests,
      List.nil_append, List.cons_append, List.append_assoc]
    rfl
  · simp only [read_all,
      current_devFail_ne bat RegAddr.CellTemp4 (by decide),
      voltage_devFail_ne bat RegAddr.CellTemp4 (by decide),
      remaining_charge_devFail_ne bat RegAddr.CellTemp4 (by decide),
      capacity_devFail_ne bat RegAddr.CellTemp4 (by decide),
      cell_voltage_1_devFail_ne bat RegAddr.CellTemp4 (by decide),
      cell_voltage_2_devFail_ne bat RegAddr.CellTemp4 (by decide),
      cell_voltage_3_devFail_ne bat RegAddr.CellTemp4 (by decide),
      cell_voltage_4_devFail_ne bat RegAddr.CellTemp4 (by decide),
      cycle_number_devFail_ne bat RegAddr.CellTemp4 (by decide),
      cell_temp_1_devFail_ne bat RegAddr.CellTemp4 (by decide),
      cell_temp_2_devFail_ne bat RegAddr.CellTemp4 (by decide),
      cell_temp_3_devFail_ne bat RegAddr.CellTemp4 (by decide),
      cell_temp_4_devFail_eq, pbind_ok, pbind_err, readAllRequests,
      List.nil_append, List.cons_append, List.append_assoc]
    rfl
  · simp only [read_all,
      current_devFail_ne bat RegAddr.HeaterLevel (by decide),
      voltage_devFail_ne bat RegAddr.HeaterLevel (by decide),
      remaining_charge_devFail_ne bat RegAddr.HeaterLevel (by decide),
      capacity_devFail_ne bat RegAddr.HeaterLevel (by decide),
      cell_voltage_1_devFail_ne bat RegAddr.HeaterLevel (by decide),
      cell_voltage_2_devFail_ne bat RegAddr.HeaterLevel (by decide),
      cell_voltage_3_devFail_ne bat RegAddr.HeaterLevel (by decide),
      cell_voltage_4_devFail_ne bat RegAddr.HeaterLevel (by decide),
      cycle_number_devFail_ne bat RegAddr.HeaterLevel (by decide),
      cell_temp_1_devFail_ne bat RegAddr.HeaterLevel (by decide),
      cell_temp_2_devFail_ne bat RegAddr.HeaterLevel (by decide),
      cell_temp_3_devFail_ne bat RegAddr.HeaterLevel (by decide),
      cell_temp_4_devFail_ne bat RegAddr.HeaterLevel (by decide),
      heater_level_devFail_eq, pbind_ok, pbind_err, readAllRequests,
      List.nil_append, List.cons_append, List.append_assoc]
    rfl
  · exact ⟨decodeState (regsConst 0), by simp [read_all_devTable]⟩

/-- C5: single-word decode — every unsigned quantity (voltage, the four
cell voltages, heater level) decodes word `w` as `w * scale`, and every
signed quantity (the four cell temperatures) decodes it as
`toSigned16(w) * scale`. -/
theorem single_word_decode (w : Nat) (hw : w < 65536) (bat : Battery)
    (s : RwState) :
    (voltage bat (devTable (regsConst w)) s).1 = .ok ((w : ℚ) * 0.1)
  ∧ (cell_voltage_1 bat (devTable (regsConst w)) s).1 = .ok ((w : ℚ) * 0.1)
  ∧ (cell_voltage_2 bat (devTable (regsConst w)) s).1 = .ok ((w : ℚ) * 0.1)
  ∧ (cell_voltage_3 bat (devTable (regsConst w)) s).1 = .ok ((w : ℚ) * 0.1)
  ∧ (cell_voltage_4 bat (devTable (regsConst w)) s).1 = .ok ((w : ℚ) * 0.1)
  ∧ (heater_level bat (devTable (regsConst w)) s).1 = .ok ((w : ℚ) * 0.3922)
  ∧ (cell_temp_1 bat (devTable (regsConst w)) s).1
      = .ok (((toSigned16 w : Int) : ℚ) * 0.1)
  ∧ (cell_temp_2 bat (devTable (regsConst w)) s).1
      = .ok (((toSigned16 w : Int) : ℚ) * 0.1)
  ∧ (cell_temp_3 bat (devTable (regsConst w)) s).1
      = .ok (((toSigned16 w : Int) : ℚ) * 0.1)
  ∧ (cell_temp_4 bat (devTable (regsConst w)) s).1
      = .ok (((toSigned16 w : Int) : ℚ) * 0.1) := by
  refine ⟨?_, ?_, ?_, ?_, ?_, ?_, ?_, ?_, ?_, ?_⟩ <;>
    simp [voltage_devTable, cell_voltage_1_devTable, cell_voltage_2_devTable,
      cell_voltage_3_devTable, cell_voltage_4_devTable, heater_level_devTable,
      cell_temp_1_devTable, cell_temp_2_devTable, cell_temp_3_devTable,
      cell_temp_4_devTable, regsConst]

/-- Witness for C5: word 0xFFFF at a signed register with scale 0.1
decodes to exactly -0.1. -/
theorem single_word_decode_witness :
    (cell_temp_1 bat0 (devTable (regsConst 0xFFFF)) st0).1
      = .ok (((toSigned16 0xFFFF : Int) : ℚ) * 0.1)
  ∧ (((toSigned16 0xFFFF : Int) : ℚ) * 0.1 = -(0.1 : ℚ)) :=
  ⟨(single_word_decode 0xFFFF (by decide) bat0 st0).2.2.2.2.2.2.1,
   by norm_num [toSigned16]⟩

/-- C6: `read_register` returns `Err(Timeout)` when the engine's 200 ms
bound expires, `Err(Io(kind))` on a transport failure, and on success
passes the word array through unchanged, which under the engine contract
has exactly the requested word count. -/
theorem read_register_outcomes (bat : Battery) (d : Device) (s : RwState)
    (a n : Nat) (hwf : EngineWF d) :
    (d bat.addr a n = .timeout →
      (read_register bat d s a n).1 = .err .Timeout)
  ∧ (∀ k, d bat.addr a n = .ioError k →
      (read_register bat d s a n).1 = .err (.Io k))
  ∧ (∀ ws, d bat.addr a n = .words ws →
      (read_register bat d s a n).1 = .ok ws ∧ ws.length = n) := by
  refine ⟨?_, ?_, ?_⟩
  · intro h
    simp [read_register, h]
  · intro k h
    simp [read_register, h]
  · intro ws h
    exact ⟨by simp [read_register, h], hwf bat.addr a n ws h⟩

/-- Witness for C6: a successful one-word read passes `[0]` through
unchanged and has length 1. -/
theorem read_register_outcomes_witness :
    (read_register bat0 (devTable (regsConst 0)) st0 5 1).1 = .ok [0]
  ∧ ([0] : List Nat).length = 1 :=
  (read_register_outcomes bat0 (devTable (regsConst 0)) st0 5 1
    (engineWF_devTable (regsConst 0))).2.2 [0] rfl

/-- C7: `Port::new` preserves the transport's error classification
exactly: io → Io, noDevice → NoDevice, invalidInput → InvalidInput,
unknown → Unknown; in particular a noDevice classification never
produces Unknown. -/
theorem port_new_error_mapping (e : SerialError) :
    (∀ k, e.kind = .io k → Port.new (.error e) = .error (.Io k))
  ∧ (e.kind = .noDevice →
      Port.new (.error e) = .error (.NoDevice e.description))
  ∧ (e.kind = .invalidInput →
      Port.new (.error e) = .error (.InvalidInput e.description))
  ∧ (e.kind = .unknown →
      Port.new (.error e) = .error (.Unknown e.description))
  ∧ (e.kind = .noDevice →
      ∀ msg, Port.new (.error e) ≠ .error (.Unknown msg)) := by
  refine ⟨?_, ?_, ?_, ?_, ?_⟩
  · intro k h
    simp [Port.new, h]
  · intro h
    simp [Port.new, h]
  · intro h
    simp [Port.new, h]
  · intro h
    simp [Port.new, h]
  · intro h msg
    simp [Port.new, h]

/-- Witness for C7: a transport error classified noDevice maps to
`NoDevice`, not `Unknown`. -/
theorem port_new_error_mapping_witness :
    Port.new (.error ⟨.noDevice, "no such device"⟩)
      = .error (.NoDevice "no such device")
  ∧ Port.new (.error ⟨.noDevice, "no such device"⟩)
      ≠ .error (.Unknown "no such device") :=
  ⟨(port_new_error_mapping ⟨.noDevice, "no such device"⟩).2.1 rfl,
   (port_new_error_mapping ⟨.noDevice, "no such device"⟩).2.2.2.2 rfl
     "no such device"⟩

/-- C8: every accessor issues exactly one read at the table's address
and word count (recorded in the trace, with this battery's slave id) and
scales the raw value by exactly the table's scale factor
(cycle_number's scale 1.0 is the identity, returned raw). -/
theorem accessor_register_table (regs : Nat → Nat)
    (hb : ∀ a, regs a < 65536) (bat : Battery) (s : RwState) :
    (current bat (devTable regs) s
      = (.ok (((toSigned16 (swapBytes16 (regs 0x13b2)) : Int) : ℚ) * 0.01),
         ⟨bat.addr, s.trace ++ [(bat.addr, 0x13b2, 1)]⟩))
  ∧ (voltage bat (devTable regs) s
      = (.ok ((regs 0x13b3 : ℚ) * 0.1),
         ⟨bat.addr, s.trace ++ [(bat.addr, 0x13b3, 1)]⟩))
  ∧ (remaining_charge bat (devTable regs) s
      = (.ok (((regs 0x13b5 + regs 0x13b4 * 65536 : Nat) : ℚ) * 0.001),
         ⟨bat.addr, s.trace ++ [(bat.addr, 0x13b4, 2)]⟩))
  ∧ (capacity bat (devTable regs) s
      = (.ok (((regs 0x13b7 + regs 0x13b6 * 65536 : Nat) : ℚ) * 0.001),
         ⟨bat.addr, s.trace ++ [(bat.addr, 0x13b6, 2)]⟩))
  ∧ (cycle_number bat (devTable regs) s
      = (.ok (regs 0x13b8),
         ⟨bat.addr, s.trace ++ [(bat.addr, 0x13b8, 1)]⟩))
  ∧ (cell_voltage_1 bat (devTable regs) s
      = (.ok ((regs 0x1389 : ℚ) * 0.1),
         ⟨bat.addr, s.trace ++ [(bat.addr, 0x1389, 1)]⟩))
  ∧ (cell_voltage_2 bat (devTable regs) s
      = (.ok ((regs 0x138a : ℚ) * 0.1),
         ⟨bat.addr, s.trace ++ [(bat.addr, 0x138a, 1)]⟩))
  ∧ (cell_voltage_3 bat (devTable regs) s
      = (.ok ((regs 0x138b : ℚ) * 0.1),
         ⟨bat.addr, s.trace ++ [(bat.addr, 0x138b, 1)]⟩))
  ∧ (cell_voltage_4 bat (devTable regs) s
      = (.ok ((regs 0x138c : ℚ) * 0.1),
         ⟨bat.addr, s.trace ++ [(bat.addr, 0x138c, 1)]⟩))
  ∧ (cell_temp_1 bat (devTable regs) s
      = (.ok (((toSigned16 (regs 0x139a) : Int) : ℚ) * 0.1),
         ⟨bat.addr, s.trace ++ [(bat.addr, 0x139a, 1)]⟩))
  ∧ (cell_temp_2 bat (devTable regs) s
      = (.ok (((toSigned16 (regs 0x139b) : Int) : ℚ) * 0.1),
         ⟨bat.addr, s.trace ++ [(bat.addr, 0x139b, 1)]⟩))
  ∧ (cell_temp_3 bat (devTable regs) s
      = (.ok (((toSigned16 (regs 0x139c) : Int) : ℚ) * 0.1),
         ⟨bat.addr, s.trace ++ [(bat.addr, 0x139c, 1)]⟩))
  ∧ (cell_temp_4 bat (devTable regs) s
      = (.ok (((toSigned16 (regs 0x139d) : Int) : ℚ) * 0.1),
         ⟨bat.addr, s.trace ++ [(bat.addr, 0x139d, 1)]⟩))
  ∧ (heater_level bat (devTable regs) s
      = (.ok ((regs 0x13ef : ℚ) * 0.3922),
         ⟨bat.addr, s.trace ++ [(bat.addr, 0x13ef, 1)]⟩)) := by
  refine ⟨?_, ?_, ?_, ?_, ?_, ?_, ?_, ?_, ?_, ?_, ?_, ?_, ?_, ?_⟩
  · rw [current_devTable]
    norm_num [RegAddr.Current, i16_swap_bytes_toSigned16 (regs 0x13b2)
      (hb 0x13b2)]
  · rw [voltage_devTable]
    norm_num [RegAddr.Voltage]
  · rw [remaining_charge_devTable]
    norm_num [RegAddr.RemainingCharge, Nat.shiftLeft_eq]
  · rw [capacity_devTable]
    norm_num [RegAddr.Capacity, Nat.shiftLeft_eq]
  · rw [cycle_number_devTable]
    norm_num [RegAddr.CycleNumber]
  · rw [cell_voltage_1_devTable]
    norm_num [RegAddr.CellVoltage1]
  · rw [cell_voltage_2_devTable]
    norm_num [RegAddr.CellVoltage2]
  · rw [cell_voltage_3_devTable]
    norm_num [RegAddr.CellVoltage3]
  · rw [cell_voltage_4_devTable]
    norm_num [RegAddr.CellVoltage4]
  · rw [cell_temp_1_devTable]
    norm_num [RegAddr.CellTemp1]
  · rw [cell_temp_2_devTable]
    norm_num [RegAddr.CellTemp2]
  · rw [cell_temp_3_devTable]
    norm_num [RegAddr.CellTemp3]
  · rw [cell_temp_4_devTable]
    norm_num [RegAddr.CellTemp4]
  · rw [heater_level_devTable]
    norm_num [RegAddr.HeaterLevel]

/-- Witness for C8: with all registers zero, `cycle_number` reads one
word at 0x13b8 and returns the raw value. -/
theorem accessor_register_table_witness :
    cycle_number bat0 (devTable (regsConst 0)) st0
      = (.ok 0, ⟨240, [(240, 0x13b8, 1)]⟩) := by
  have hb : ∀ a, regsConst 0 a < 65536 := fun a => by norm_num [regsConst]
  have h := (accessor_register_table (regsConst 0) hb bat0 st0).2.2.2.2.1
  simpa [regsConst, bat0, st0] using h

/-- C9: `read_all` is deterministic in the register contents — against a
device with fixed register contents, two successive calls return the
same fully decoded `BatteryState`, regardless of the port state left by
the first call. -/
theorem read_all_deterministic (bat : Battery) (regs : Nat → Nat)
    (s : RwState) :
    (read_all bat (devTable regs) ((read_all bat (devTable regs) s).2)).1
      = (read_all bat (devTable regs) s).1
  ∧ (read_all bat (devTable regs) s).1 = .ok (decodeState regs) := by
  constructor
  · exact stateIrrel_read_all bat (devTable regs) _ s
  · simp [read_all_devTable]

/-- C10: if the engine returns a word array whose length differs from
the requested count, `read_u16`, `read_i16` and `read_u32` hit their
`assert!` (modelled as `assertFail`, not a returned `Error`); under the
engine contract that the requested count is returned, no assertion ever
fails. -/
theorem length_assertions :
    (∀ (bat : Battery) (d : Device) (s : RwState) (a : Nat) (ws : List Nat),
       d bat.addr a 1 = .words ws → ws.length ≠ 1 →
       (read_u16 bat d s a).1 = .assertFail
     ∧ (read_i16 bat d s a).1 = .assertFail)
  ∧ (∀ (bat : Battery) (d : Device) (s : RwState) (a : Nat) (ws : List Nat),
       d bat.addr a 2 = .words ws → ws.length ≠ 2 →
       (read_u32 bat d s a).1 = .assertFail)
  ∧ (∀ (bat : Battery) (d : Device) (s : RwState) (a : Nat), EngineWF d →
       (read_u16 bat d s a).1 ≠ .assertFail
     ∧ (read_i16 bat d s a).1 ≠ .assertFail
     ∧ (read_u32 bat d s a).1 ≠ .assertFail) := by
  refine ⟨?_, ?_, ?_⟩
  · intro bat d s a ws h hlen
    constructor
    · simp [read_u16, read_register, h, hlen, pbind]
    · simp [read_i16, read_register, h, hlen, pbind]
  · intro bat d s a ws h hlen
    simp [read_u32, read_register, h, hlen, pbind]
  · intro bat d s a hwf
    refine ⟨?_, ?_, ?_⟩
    · rcases hd : d bat.addr a 1 with ws | k | _
      · have hl := hwf bat.addr a 1 ws hd
        simp [read_u16, read_register, hd, hl, pbind]
      · simp [read_u16, read_register, hd, pbind]
      · simp [read_u16, read_register, hd, pbind]
    · rcases hd : d bat.addr a 1 with ws | k | _
      · have hl := hwf bat.addr a 1 ws hd
        simp [read_i16, read_register, hd, hl, pbind]
      · simp [read_i16, read_register, hd, pbind]
      · simp [read_i16, read_register, hd, pbind]
    · rcases hd : d bat.addr a 2 with ws | k | _
      · have hl := hwf bat.addr a 2 ws hd
        simp [read_u32, read_register, hd, hl, pbind]
      · simp [read_u32, read_register, hd, pbind]
      · simp [read_u32, read_register, hd, pbind]

/-- Witness for C10: an engine answering with an empty word array trips
all three assertions, while a contract-abiding engine trips none. -/
theorem length_assertions_witness :
    (read_u16 bat0 devEmpty st0 5).1 = .assertFail
  ∧ (read_i16 bat0 devEmpty st0 5).1 = .assertFail
  ∧ (read_u32 bat0 devEmpty st0 5).1 = .assertFail
  ∧ (read_u16 bat0 (devTable (regsConst 0)) st0 5).1 ≠ .assertFail :=
  ⟨(length_assertions.1 bat0 devEmpty st0 5 [] rfl (by decide)).1,
   (length_assertions.1 bat0 devEmpty st0 5 [] rfl (by decide)).2,
   length_assertions.2.1 bat0 devEmpty st0 5 [] rfl (by decide),
   (length_assertions.2.2 bat0 (devTable (regsConst 0)) st0 5
     (engineWF_devTable (regsConst 0))).1⟩

end Renogy
